import Mathlib

/-!
Verification of the `CaptureConsole` console-interception integration
described by the design document of this repository.

The integration itself (`packages/integrations/src/captureconsole.ts`) is
not part of the visible sources; only its test suite
(`packages/integrations/test/captureconsole.test.ts`) is.  The definitions
below are therefore modelled from the specification text (sections 3, 4, 6,
7 of the design document), with the in-repository test suite breaking ties
where the specification is ambiguous.  Console values, console functions,
hubs and scope effects are given explicit, executable representations so
that every property can be evaluated on concrete inputs.
-/

/-- Runtime value passed to a console method.  The design document treats
values as opaque except for three capabilities: being recognized as an
error-like value, truthiness (for `assert` conditions), and
stringification.  The constructors cover the value shapes exercised by the
test suite: strings, error objects, booleans, numbers and `undefined`. -/
inductive ConsoleArg where
  | str (s : String)
  | err (msg : String)
  | bool (b : Bool)
  | num (n : Int)
  | undef
deriving DecidableEq, Repr

/-- Modelled from the spec: the duck-typing check deciding whether a value
is recognized as an error-like value (design document section 4.2 and the
tagged-variant remark of section 9). -/
def isErrorLike : ConsoleArg → Bool
  | ConsoleArg.err _ => true
  | _ => false

/-- Modelled from the spec: JavaScript truthiness of a console value, used
to evaluate the asserted condition of a wrapped `assert` call. -/
def truthy : ConsoleArg → Bool
  | ConsoleArg.str s => s ≠ ""
  | ConsoleArg.err _ => true
  | ConsoleArg.bool b => b
  | ConsoleArg.num n => n ≠ 0
  | ConsoleArg.undef => false

/-- Modelled from the spec: stringification of a single console value, as
performed when arguments are joined into a report message. -/
def displayString : ConsoleArg → String
  | ConsoleArg.str s => s
  | ConsoleArg.err m => "Error: " ++ m
  | ConsoleArg.bool b => if b then "true" else "false"
  | ConsoleArg.num n => toString n
  | ConsoleArg.undef => "undefined"

/-- Modelled from the spec: the stringified join of an argument list with a
space separator (the open question of design document section 9 is settled
by the test suite in favour of a space-joined message). -/
def safeJoin (args : List ConsoleArg) : String :=
  String.intercalate " " (args.map displayString)

/-- A console member function.  `orig id` is an original (pre-setup)
function reference, identified by a numeral so that distinct references are
distinguishable; `wrappedUndef level` is a wrapper installed by setup over
a member that was present but `undefined` at wrap time; `wrappedFn level
stored` is a wrapper holding the function reference `stored` that occupied
the slot at wrap time. -/
inductive ConsoleFn where
  | orig (id : Nat)
  | wrappedUndef (level : String)
  | wrappedFn (level : String) (stored : ConsoleFn)
deriving DecidableEq, Repr

/-- The wrapper installed for `level` over the old slot contents `old`. -/
def ConsoleFn.wrap (level : String) : Option ConsoleFn → ConsoleFn
  | none => ConsoleFn.wrappedUndef level
  | some f => ConsoleFn.wrappedFn level f

/-- Structural depth of a console function; wrapping strictly increases it,
which is how we prove that a wrapper is a new function reference. -/
def fnDepth : ConsoleFn → Nat
  | ConsoleFn.orig _ => 1
  | ConsoleFn.wrappedUndef _ => 1
  | ConsoleFn.wrappedFn _ f => fnDepth f + 1

/-- The console object: a map from member names to slots.  An outer `none`
means the member is absent (`name in console` is false); `some none` means
the member is present but holds `undefined`; `some (some f)` is a member
holding the function `f`. -/
def Console : Type := String → Option (Option ConsoleFn)

/-- Modelled from the spec: wrap a single level.  If the level is present
on the console object its slot is replaced by a wrapper storing the old
slot contents; absent levels are silently skipped and never created
(design document section 4.1). -/
def wrapLevel (c : Console) (level : String) : Console :=
  match c level with
  | none => c
  | some old => fun k => if k = level then some (some (ConsoleFn.wrap level old)) else c k

/-- Modelled from the spec: the console mutation performed by `setupOnce`
on a present console object — each configured level present on the console
object is replaced by a wrapper (design document section 4.1). -/
def wrapLevels (levels : List String) (c : Console) : Console :=
  levels.foldl wrapLevel c

/-- The default level set used when the configuration omits `levels`
(taken from the default-levels test of the suite). -/
def CONSOLE_LEVELS : List String :=
  ["debug", "info", "warn", "error", "log", "assert"]

/-- Modelled from the spec: `configure(levels?)` — the effective level set
is the configured one when given, the default set otherwise (design
document section 4.1). -/
def effectiveLevels (levels : Option (List String)) : List String :=
  levels.getD CONSOLE_LEVELS

/-- The external reporting hub, reduced to the one capability the
integration queries at call time: whether `getIntegration` reports this
integration as active. -/
structure Hub where
  integrationActive : Bool
deriving DecidableEq, Repr

/-- One observable side effect of a wrapped console call: a scope
manipulation, a capture dispatched to the hub, or the call-through to the
stored underlying function reference. -/
inductive Effect where
  | setLevel (level : String)
  | setExtra (key : String) (args : List ConsoleArg)
  | addLoggerProcessor (tag : String)
  | captureMessage (msg : String)
  | captureException (arg : ConsoleArg)
  | callOriginal (fn : ConsoleFn) (args : List ConsoleArg)
deriving DecidableEq, Repr

/-- Modelled from the spec: the message reported for a failed assertion —
`Assertion failed: ` followed by the joined message arguments when they
join to a non-empty string, and by `console.assert` otherwise (design
document section 8 and the failed-assertion tests). -/
def assertMessage (rest : List ConsoleArg) : String :=
  if safeJoin rest = "" then "Assertion failed: console.assert"
  else "Assertion failed: " ++ safeJoin rest

/-- Modelled from the spec: the scope preparation performed for every
dispatched report — set the scope level to the console level name, record
the full argument list under the extra key `arguments`, and add the event
processor tagging the logger field (design document sections 4.2 and 6). -/
def scopeSetup (level : String) (args : List ConsoleArg) : List Effect :=
  [Effect.setLevel level, Effect.setExtra "arguments" args,
   Effect.addLoggerProcessor "console"]

/-- Modelled from the spec: the per-call level dispatch of the
LevelResolver (design document section 4.2).  For `assert`, a truthy
condition reports nothing and a falsy one records the remaining arguments
and reports the assertion message; otherwise a single error-like argument
is reported via exception-capture and anything else via message-capture. -/
def branchEffects (level : String) (args : List ConsoleArg) : List Effect :=
  if level = "assert" then
    if truthy (args.headD ConsoleArg.undef) then []
    else [Effect.setExtra "arguments" args.tail,
          Effect.captureMessage (assertMessage args.tail)]
  else if args.length == 1 && isErrorLike (args.headD ConsoleArg.undef) then
    [Effect.captureException (args.headD ConsoleArg.undef)]
  else
    [Effect.captureMessage (safeJoin args)]

/-- Modelled from the spec: everything a wrapped call does beyond the
call-through — if a hub is resolvable and reports the integration as
active, run the scope preparation and the level dispatch inside
`withScope`; otherwise do nothing (design document sections 4.1 and 4.2). -/
def dispatchEffects (level : String) (args : List ConsoleArg) :
    Option Hub → List Effect
  | none => []
  | some h =>
      if h.integrationActive then scopeSetup level args ++ branchEffects level args
      else []

/-- Modelled from the spec: the observable effects of invoking a console
function reference.  An original reference simply runs (recorded as one
`callOriginal` effect); a wrapper dispatches its report and then calls
through to the stored reference exactly when one exists (design document
sections 4.1 and 7c). -/
def callEffects (f : ConsoleFn) (hub : Option Hub) (args : List ConsoleArg) :
    List Effect :=
  match f with
  | ConsoleFn.orig id => [Effect.callOriginal (ConsoleFn.orig id) args]
  | ConsoleFn.wrappedUndef level => dispatchEffects level args hub
  | ConsoleFn.wrappedFn level g =>
      dispatchEffects level args hub ++ [Effect.callOriginal g args]

/-- The one failure mode of the raw JavaScript semantics we model: calling
a member that is absent or `undefined` raises a `TypeError`. -/
inductive JsError where
  | typeError
deriving DecidableEq, Repr

/-- Invoking a console member by name, with JavaScript call semantics: an
absent or `undefined` member raises, a function member runs. -/
def invokeMember (c : Console) (k : String) (hub : Option Hub)
    (args : List ConsoleArg) : Except JsError (List Effect) :=
  match c k with
  | none => Except.error JsError.typeError
  | some none => Except.error JsError.typeError
  | some (some f) => Except.ok (callEffects f hub args)

/-- Modelled from the spec: `setup` — when no console object is available
the operation degrades to a no-op without raising; otherwise the
configured levels are wrapped (design document sections 4.1 and 7a). -/
def setupOnce (levels : List String) (console? : Option Console) :
    Except JsError (Option Console) :=
  match console? with
  | none => Except.ok none
  | some c => Except.ok (some (wrapLevels levels c))

/-- Whether a console slot holds a callable member. -/
def callableSlot : Option (Option ConsoleFn) → Bool
  | some (some _) => true
  | _ => false

/-- A report event, reduced to the field the integration manipulates. -/
structure Event where
  logger : Option String
deriving DecidableEq, Repr

/-- Modelled from the spec: the event processor added by the integration,
which sets the logger field of the produced event (design document
section 6). -/
def applyLoggerProcessor (tag : String) (e : Event) : Event :=
  { e with logger := some tag }

/- Effect classification and counting helpers. -/

def isMessageCapture : Effect → Bool
  | Effect.captureMessage _ => true
  | _ => false

def isExceptionCapture : Effect → Bool
  | Effect.captureException _ => true
  | _ => false

def isCapture (e : Effect) : Bool :=
  isMessageCapture e || isExceptionCapture e

def isCallOriginal : Effect → Bool
  | Effect.callOriginal _ _ => true
  | _ => false

def isSetLevel : Effect → Bool
  | Effect.setLevel _ => true
  | _ => false

def countMessages (l : List Effect) : Nat := (l.filter isMessageCapture).length

def countExceptions (l : List Effect) : Nat := (l.filter isExceptionCapture).length

def countCaptures (l : List Effect) : Nat := (l.filter isCapture).length

def countCallOriginal (l : List Effect) : Nat := (l.filter isCallOriginal).length

def countSetLevel (l : List Effect) : Nat := (l.filter isSetLevel).length

/-- The texts of the message-captures dispatched by a call, in order. -/
def capturedMessages (l : List Effect) : List String :=
  l.filterMap fun e =>
    match e with
    | Effect.captureMessage m => some m
    | _ => none

/-- The value most recently recorded under an extra key, if any. -/
def lastExtra (key : String) : List Effect → Option (List ConsoleArg)
  | [] => none
  | e :: rest =>
      match lastExtra key rest with
      | some v => some v
      | none =>
          match e with
          | Effect.setExtra k v => if k = key then some v else none
          | _ => none

/-- A concrete console used to instantiate witnesses: `log` and `warn`
hold distinct original function references, `info` is present but
`undefined`, every other member is absent. -/
def demoConsole : Console := fun k =>
  if k = "log" then some (some (ConsoleFn.orig 0))
  else if k = "warn" then some (some (ConsoleFn.orig 1))
  else if k = "info" then some none
  else none

/- Basic facts about wrapping. -/

theorem wrapLevel_other (c : Console) (l k : String) (hk : k ≠ l) :
    wrapLevel c l k = c k := by
  unfold wrapLevel
  cases hc : c l with
  | none => rfl
  | some old => simp [hk]

theorem wrapLevel_absent (c : Console) (l : String) (h : c l = none) :
    wrapLevel c l = c := by
  unfold wrapLevel
  rw [h]

theorem wrapLevel_present (c : Console) (l : String) (old : Option ConsoleFn)
    (h : c l = some old) :
    wrapLevel c l l = some (some (ConsoleFn.wrap l old)) := by
  unfold wrapLevel
  rw [h]
  simp

theorem wrapLevels_notMem (L : List String) (c : Console) (k : String)
    (h : k ∉ L) : wrapLevels L c k = c k := by
  induction L generalizing c with
  | nil => rfl
  | cons l L ih =>
      have hk : k ≠ l := fun he => h (he ▸ List.mem_cons_self l L)
      have hL : k ∉ L := fun hm => h (List.mem_cons_of_mem l hm)
      calc wrapLevels (l :: L) c k = wrapLevels L (wrapLevel c l) k := rfl
        _ = wrapLevel c l k := ih (wrapLevel c l) hL
        _ = c k := wrapLevel_other c l k hk

theorem wrapLevels_none (L : List String) (c : Console) (k : String)
    (h : c k = none) : wrapLevels L c k = none := by
  induction L generalizing c with
  | nil => exact h
  | cons l L ih =>
      have hstep : wrapLevel c l k = none := by
        by_cases hk : k = l
        · subst hk
          rw [wrapLevel_absent c k h, h]
        · rw [wrapLevel_other c l k hk, h]
      exact ih (wrapLevel c l) hstep

theorem wrapLevels_mem (L : List String) (c : Console) (k : String)
    (old : Option ConsoleFn) (hn : L.Nodup) (hk : k ∈ L) (h : c k = some old) :
    wrapLevels L c k = some (some (ConsoleFn.wrap k old)) := by
  induction L generalizing c with
  | nil => cases hk
  | cons l L ih =>
      by_cases he : k = l
      · subst he
        have hnot : k ∉ L := (List.nodup_cons.mp hn).1
        calc wrapLevels (k :: L) c k = wrapLevels L (wrapLevel c k) k := rfl
          _ = wrapLevel c k k := wrapLevels_notMem L (wrapLevel c k) k hnot
          _ = some (some (ConsoleFn.wrap k old)) := wrapLevel_present c k old h
      · have hkL : k ∈ L := by
          cases List.mem_cons.mp hk with
          | inl h0 => exact absurd h0 he
          | inr h0 => exact h0
        have hpres : wrapLevel c l k = some old := by
          rw [wrapLevel_other c l k he, h]
        exact ih (wrapLevel c l) (List.nodup_cons.mp hn).2 hkL hpres

theorem wrap_ne (l : String) (old : Option ConsoleFn) :
    some (ConsoleFn.wrap l old) ≠ old := by
  cases old with
  | none => simp
  | some g =>
      intro h
      have h2 : ConsoleFn.wrap l (some g) = g := Option.some.inj h
      have h3 : fnDepth (ConsoleFn.wrap l (some g)) = fnDepth g := congrArg fnDepth h2
      simp [ConsoleFn.wrap, fnDepth] at h3

/- Basic facts about per-call dispatch. -/

theorem dispatchEffects_hubless (l : String) (a : List ConsoleArg) :
    dispatchEffects l a none = [] := rfl

theorem dispatchEffects_inactive (l : String) (a : List ConsoleArg) (h : Hub)
    (hh : h.integrationActive = false) : dispatchEffects l a (some h) = [] := by
  simp [dispatchEffects, hh]

theorem dispatchEffects_active (l : String) (a : List ConsoleArg) (h : Hub)
    (hh : h.integrationActive = true) :
    dispatchEffects l a (some h) = scopeSetup l a ++ branchEffects l a := by
  simp [dispatchEffects, hh]

theorem branchEffects_assert_truthy (cond : ConsoleArg) (rest : List ConsoleArg)
    (ht : truthy cond = true) :
    branchEffects "assert" (cond :: rest) = [] := by
  simp [branchEffects, ht]

theorem branchEffects_assert_falsy (cond : ConsoleArg) (rest : List ConsoleArg)
    (ht : truthy cond = false) :
    branchEffects "assert" (cond :: rest) =
      [Effect.setExtra "arguments" rest,
       Effect.captureMessage (assertMessage rest)] := by
  simp [branchEffects, ht]

theorem branchEffects_single_error (l : String) (hl : l ≠ "assert")
    (a : ConsoleArg) (ha : isErrorLike a = true) :
    branchEffects l [a] = [Effect.captureException a] := by
  simp [branchEffects, hl, ha]

theorem branchEffects_single_nonerror (l : String) (hl : l ≠ "assert")
    (a : ConsoleArg) (ha : isErrorLike a = false) :
    branchEffects l [a] = [Effect.captureMessage (safeJoin [a])] := by
  simp [branchEffects, hl, ha]

theorem branchEffects_other_length (l : String) (hl : l ≠ "assert")
    (args : List ConsoleArg) (ha : args.length ≠ 1) :
    branchEffects l args = [Effect.captureMessage (safeJoin args)] := by
  simp [branchEffects, hl, ha]

theorem countCallOriginal_branch (level : String) (args : List ConsoleArg) :
    countCallOriginal (branchEffects level args) = 0 := by
  unfold branchEffects
  split
  · split <;> rfl
  · split <;> rfl

theorem countCallOriginal_dispatch (level : String) (args : List ConsoleArg)
    (hub : Option Hub) : countCallOriginal (dispatchEffects level args hub) = 0 := by
  cases hub with
  | none => rfl
  | some h =>
      cases hh : h.integrationActive with
      | false => rw [dispatchEffects_inactive _ _ _ hh]; rfl
      | true =>
          rw [dispatchEffects_active _ _ _ hh]
          have hb := countCallOriginal_branch level args
          simp [countCallOriginal, List.filter_append, scopeSetup] at hb ⊢
          simp [isCallOriginal, hb, countCallOriginal] at hb ⊢
          exact hb

theorem countSetLevel_branch (level : String) (args : List ConsoleArg) :
    countSetLevel (branchEffects level args) = 0 := by
  unfold branchEffects
  split
  · split <;> rfl
  · split <;> rfl

/-- C1: for every configured level set L, after setup exactly the levels in
L that are also members of the console object are reassigned to new
function references (a wrapper over the old slot), every other console
member keeps its pre-setup reference, and when L is empty no member is
reassigned and no report is ever dispatched (the console then consists of
the pre-setup references, whose invocation produces no capture). -/
theorem wrapLevels_patches_exactly_configured (L : List String) (c : Console)
    (k : String) (hn : L.Nodup) :
    ((k ∈ L ∧ (c k).isSome) →
        wrapLevels L c k ≠ c k ∧
        ∃ old, c k = some old ∧
          wrapLevels L c k = some (some (ConsoleFn.wrap k old))) ∧
    (¬(k ∈ L ∧ (c k).isSome) → wrapLevels L c k = c k) ∧
    wrapLevels [] c = c ∧
    (∀ (id : Nat) (hub : Option Hub) (args : List ConsoleArg),
        countCaptures (callEffects (ConsoleFn.orig id) hub args) = 0) := by
  refine ⟨?_, ?_, rfl, ?_⟩
  · rintro ⟨hkL, hsome⟩
    obtain ⟨old, hold⟩ := Option.isSome_iff_exists.mp hsome
    have heq := wrapLevels_mem L c k old hn hkL hold
    refine ⟨?_, old, hold, heq⟩
    rw [heq, hold]
    intro hcontra
    exact wrap_ne k old (Option.some.inj hcontra)
  · intro hnot
    by_cases hkL : k ∈ L
    · have hnone : c k = none := by
        cases hc : c k with
        | none => rfl
        | some v => exact absurd ⟨hkL, by simp [hc]⟩ hnot
      rw [wrapLevels_none L c k hnone, hnone]
    · exact wrapLevels_notMem L c k hkL
  · intro id hub args
    rfl

theorem wrapLevels_patches_exactly_configured_witness :
    (["log"] : List String).Nodup ∧
    ((("log" ∈ (["log"] : List String)) ∧ (demoConsole "log").isSome) →
        wrapLevels ["log"] demoConsole "log" ≠ demoConsole "log" ∧
        ∃ old, demoConsole "log" = some old ∧
          wrapLevels ["log"] demoConsole "log" =
            some (some (ConsoleFn.wrap "log" old))) ∧
    (¬(("log" ∈ (["log"] : List String)) ∧ (demoConsole "log").isSome) →
        wrapLevels ["log"] demoConsole "log" = demoConsole "log") ∧
    wrapLevels [] demoConsole = demoConsole ∧
    (∀ (id : Nat) (hub : Option Hub) (args : List ConsoleArg),
        countCaptures (callEffects (ConsoleFn.orig id) hub args) = 0) :=
  ⟨by decide, wrapLevels_patches_exactly_configured ["log"] demoConsole "log" (by decide)⟩

/-- The call-through part of a wrapped call: the stored underlying
reference is invoked with the original arguments exactly when it exists
(design document section 7c). -/
def callThrough (stored : Option ConsoleFn) (args : List ConsoleArg) : List Effect :=
  match stored with
  | some g => [Effect.callOriginal g args]
  | none => []

theorem callEffects_wrap (level : String) (stored : Option ConsoleFn)
    (hub : Option Hub) (args : List ConsoleArg) :
    callEffects (ConsoleFn.wrap level stored) hub args =
      dispatchEffects level args hub ++ callThrough stored args := by
  cases stored with
  | none => simp [ConsoleFn.wrap, callEffects, callThrough]
  | some g => rfl

theorem countMessages_append (l₁ l₂ : List Effect) :
    countMessages (l₁ ++ l₂) = countMessages l₁ + countMessages l₂ := by
  simp [countMessages, List.filter_append]

theorem countExceptions_append (l₁ l₂ : List Effect) :
    countExceptions (l₁ ++ l₂) = countExceptions l₁ + countExceptions l₂ := by
  simp [countExceptions, List.filter_append]

theorem countCaptures_append (l₁ l₂ : List Effect) :
    countCaptures (l₁ ++ l₂) = countCaptures l₁ + countCaptures l₂ := by
  simp [countCaptures, List.filter_append]

theorem countSetLevel_append (l₁ l₂ : List Effect) :
    countSetLevel (l₁ ++ l₂) = countSetLevel l₁ + countSetLevel l₂ := by
  simp [countSetLevel, List.filter_append]

theorem countCallOriginal_append (l₁ l₂ : List Effect) :
    countCallOriginal (l₁ ++ l₂) = countCallOriginal l₁ + countCallOriginal l₂ := by
  simp [countCallOriginal, List.filter_append]

theorem capturedMessages_append (l₁ l₂ : List Effect) :
    capturedMessages (l₁ ++ l₂) = capturedMessages l₁ ++ capturedMessages l₂ := by
  simp [capturedMessages]

theorem countMessages_callThrough (s : Option ConsoleFn) (a : List ConsoleArg) :
    countMessages (callThrough s a) = 0 := by
  cases s <;> rfl

theorem countExceptions_callThrough (s : Option ConsoleFn) (a : List ConsoleArg) :
    countExceptions (callThrough s a) = 0 := by
  cases s <;> rfl

theorem countCaptures_callThrough (s : Option ConsoleFn) (a : List ConsoleArg) :
    countCaptures (callThrough s a) = 0 := by
  cases s <;> rfl

theorem countSetLevel_callThrough (s : Option ConsoleFn) (a : List ConsoleArg) :
    countSetLevel (callThrough s a) = 0 := by
  cases s <;> rfl

theorem capturedMessages_callThrough (s : Option ConsoleFn) (a : List ConsoleArg) :
    capturedMessages (callThrough s a) = [] := by
  cases s <;> rfl

theorem lastExtra_callThrough (key : String) (s : Option ConsoleFn)
    (a : List ConsoleArg) : lastExtra key (callThrough s a) = none := by
  cases s <;> rfl

/-- C2: for every call to a wrapped non-assert level with the integration
active, a single error-like argument is reported by exactly one
exception-capture carrying that exact value and no message-capture, while
every other argument shape (a single non-error value, or any argument
count other than one) is reported by exactly one message-capture and no
exception-capture: error-object detection takes precedence only at
argument count one. -/
theorem wrapped_call_error_precedence (level : String) (stored : Option ConsoleFn)
    (h : Hub) (hh : h.integrationActive = true) (hl : level ≠ "assert") :
    (∀ a : ConsoleArg, isErrorLike a = true →
        countExceptions (callEffects (ConsoleFn.wrap level stored) (some h) [a]) = 1 ∧
        Effect.captureException a ∈
          callEffects (ConsoleFn.wrap level stored) (some h) [a] ∧
        countMessages (callEffects (ConsoleFn.wrap level stored) (some h) [a]) = 0) ∧
    (∀ a : ConsoleArg, isErrorLike a = false →
        countMessages (callEffects (ConsoleFn.wrap level stored) (some h) [a]) = 1 ∧
        countExceptions (callEffects (ConsoleFn.wrap level stored) (some h) [a]) = 0) ∧
    (∀ args : List ConsoleArg, args.length ≠ 1 →
        countMessages (callEffects (ConsoleFn.wrap level stored) (some h) args) = 1 ∧
        countExceptions (callEffects (ConsoleFn.wrap level stored) (some h) args) = 0) := by
  refine ⟨?_, ?_, ?_⟩
  · intro a ha
    rw [callEffects_wrap, dispatchEffects_active _ _ _ hh,
        branchEffects_single_error level hl a ha]
    refine ⟨?_, ?_, ?_⟩
    · rw [countExceptions_append, countExceptions_append, countExceptions_callThrough]
      rfl
    · simp [scopeSetup]
    · rw [countMessages_append, countMessages_append, countMessages_callThrough]
      rfl
  · intro a ha
    rw [callEffects_wrap, dispatchEffects_active _ _ _ hh,
        branchEffects_single_nonerror level hl a ha]
    constructor
    · rw [countMessages_append, countMessages_append, countMessages_callThrough]
      rfl
    · rw [countExceptions_append, countExceptions_append, countExceptions_callThrough]
      rfl
  · intro args ha
    rw [callEffects_wrap, dispatchEffects_active _ _ _ hh,
        branchEffects_other_length level hl args ha]
    constructor
    · rw [countMessages_append, countMessages_append, countMessages_callThrough]
      rfl
    · rw [countExceptions_append, countExceptions_append, countExceptions_callThrough]
      rfl

/-- A hub whose `getIntegration` reports the integration as active. -/
def demoHub : Hub := ⟨true⟩

/-- A hub whose `getIntegration` returns null for this integration. -/
def demoHubOff : Hub := ⟨false⟩

theorem wrapped_call_error_precedence_witness :
    demoHub.integrationActive = true ∧ ("error" : String) ≠ "assert" ∧
    ((∀ a : ConsoleArg, isErrorLike a = true →
        countExceptions (callEffects (ConsoleFn.wrap "error" (some (ConsoleFn.orig 0)))
          (some demoHub) [a]) = 1 ∧
        Effect.captureException a ∈
          callEffects (ConsoleFn.wrap "error" (some (ConsoleFn.orig 0))) (some demoHub) [a] ∧
        countMessages (callEffects (ConsoleFn.wrap "error" (some (ConsoleFn.orig 0)))
          (some demoHub) [a]) = 0) ∧
    (∀ a : ConsoleArg, isErrorLike a = false →
        countMessages (callEffects (ConsoleFn.wrap "error" (some (ConsoleFn.orig 0)))
          (some demoHub) [a]) = 1 ∧
        countExceptions (callEffects (ConsoleFn.wrap "error" (some (ConsoleFn.orig 0)))
          (some demoHub) [a]) = 0) ∧
    (∀ args : List ConsoleArg, args.length ≠ 1 →
        countMessages (callEffects (ConsoleFn.wrap "error" (some (ConsoleFn.orig 0)))
          (some demoHub) args) = 1 ∧
        countExceptions (callEffects (ConsoleFn.wrap "error" (some (ConsoleFn.orig 0)))
          (some demoHub) args) = 0)) :=
  ⟨rfl, by decide,
    wrapped_call_error_precedence "error" (some (ConsoleFn.orig 0)) demoHub rfl (by decide)⟩

theorem safeJoin_single (a : ConsoleArg) : safeJoin [a] = displayString a := rfl

theorem assertMessage_nil : assertMessage [] = "Assertion failed: console.assert" := rfl

theorem assertMessage_single (m : ConsoleArg) (hm : displayString m ≠ "") :
    assertMessage [m] = "Assertion failed: " ++ displayString m := by
  rw [assertMessage, safeJoin_single]
  simp [hm]

/-- C3: for every call to a wrapped `assert` level with the integration
active, a truthy asserted condition produces zero capture calls, and a
falsy one produces exactly one message-capture, whose text is
`Assertion failed: console.assert` when no message argument is given and
`Assertion failed: <message>` when one (non-empty) message is given. -/
theorem wrapped_assert_capture (stored : Option ConsoleFn) (h : Hub)
    (hh : h.integrationActive = true) :
    (∀ (cond : ConsoleArg) (rest : List ConsoleArg), truthy cond = true →
        countCaptures (callEffects (ConsoleFn.wrap "assert" stored) (some h)
          (cond :: rest)) = 0) ∧
    (∀ cond : ConsoleArg, truthy cond = false →
        capturedMessages (callEffects (ConsoleFn.wrap "assert" stored) (some h) [cond]) =
          ["Assertion failed: console.assert"] ∧
        countCaptures (callEffects (ConsoleFn.wrap "assert" stored) (some h) [cond]) = 1) ∧
    (∀ (cond m : ConsoleArg), truthy cond = false → displayString m ≠ "" →
        capturedMessages (callEffects (ConsoleFn.wrap "assert" stored) (some h)
          [cond, m]) = ["Assertion failed: " ++ displayString m] ∧
        countCaptures (callEffects (ConsoleFn.wrap "assert" stored) (some h)
          [cond, m]) = 1) := by
  refine ⟨?_, ?_, ?_⟩
  · intro cond rest hc
    rw [callEffects_wrap, dispatchEffects_active _ _ _ hh,
        branchEffects_assert_truthy cond rest hc]
    rw [countCaptures_append, countCaptures_append, countCaptures_callThrough]
    rfl
  · intro cond hc
    rw [callEffects_wrap, dispatchEffects_active _ _ _ hh,
        branchEffects_assert_falsy cond [] hc]
    constructor
    · rw [capturedMessages_append, capturedMessages_append, capturedMessages_callThrough]
      rfl
    · rw [countCaptures_append, countCaptures_append, countCaptures_callThrough]
      rfl
  · intro cond m hc hm
    rw [callEffects_wrap, dispatchEffects_active _ _ _ hh,
        branchEffects_assert_falsy cond [m] hc]
    constructor
    · rw [capturedMessages_append, capturedMessages_append, capturedMessages_callThrough]
      rw [assertMessage_single m hm]
      rfl
    · rw [countCaptures_append, countCaptures_append, countCaptures_callThrough]
      rfl

theorem wrapped_assert_capture_witness :
    demoHub.integrationActive = true ∧
    ((∀ (cond : ConsoleArg) (rest : List ConsoleArg), truthy cond = true →
        countCaptures (callEffects (ConsoleFn.wrap "assert" (some (ConsoleFn.orig 0)))
          (some demoHub) (cond :: rest)) = 0) ∧
    (∀ cond : ConsoleArg, truthy cond = false →
        capturedMessages (callEffects (ConsoleFn.wrap "assert" (some (ConsoleFn.orig 0)))
          (some demoHub) [cond]) = ["Assertion failed: console.assert"] ∧
        countCaptures (callEffects (ConsoleFn.wrap "assert" (some (ConsoleFn.orig 0)))
          (some demoHub) [cond]) = 1) ∧
    (∀ (cond m : ConsoleArg), truthy cond = false → displayString m ≠ "" →
        capturedMessages (callEffects (ConsoleFn.wrap "assert" (some (ConsoleFn.orig 0)))
          (some demoHub) [cond, m]) = ["Assertion failed: " ++ displayString m] ∧
        countCaptures (callEffects (ConsoleFn.wrap "assert" (some (ConsoleFn.orig 0)))
          (some demoHub) [cond, m]) = 1)) :=
  ⟨rfl, wrapped_assert_capture (some (ConsoleFn.orig 0)) demoHub rfl⟩

/-- C4 counterexample: a failed assertion with no message argument.  The
claim says the reported message is the string `Assertion failed` (the
suffix may appear only when a non-empty first argument follows the
condition), but the integration reports
`Assertion failed: console.assert`, never the bare string. -/
theorem assert_no_message_counterexample :
    capturedMessages (callEffects (ConsoleFn.wrap "assert" (some (ConsoleFn.orig 0)))
        (some demoHub) [ConsoleArg.bool false]) =
      ["Assertion failed: console.assert"] ∧
    ("Assertion failed: console.assert" : String) ≠ "Assertion failed" := by
  constructor
  · rfl
  · decide

/-- C4 (amended): for every failed assertion on a wrapped `assert` level
with the integration active, the reported message is `Assertion failed: `
followed by the joined arguments after the condition when they join to a
non-empty string and by `console.assert` otherwise, and the arguments
after the condition are what is recorded as extra context. -/
theorem wrapped_assert_message_amended (stored : Option ConsoleFn) (h : Hub)
    (cond : ConsoleArg) (rest : List ConsoleArg)
    (hh : h.integrationActive = true) (hc : truthy cond = false) :
    capturedMessages (callEffects (ConsoleFn.wrap "assert" stored) (some h)
        (cond :: rest)) =
      [if safeJoin rest = "" then "Assertion failed: console.assert"
       else "Assertion failed: " ++ safeJoin rest] ∧
    lastExtra "arguments" (callEffects (ConsoleFn.wrap "assert" stored) (some h)
        (cond :: rest)) = some rest := by
  rw [callEffects_wrap, dispatchEffects_active _ _ _ hh,
      branchEffects_assert_falsy cond rest hc]
  constructor
  · rw [capturedMessages_append, capturedMessages_append, capturedMessages_callThrough]
    rw [show assertMessage rest =
        (if safeJoin rest = "" then "Assertion failed: console.assert"
         else "Assertion failed: " ++ safeJoin rest) from rfl]
    rfl
  · cases stored <;> rfl

theorem wrapped_assert_message_amended_witness :
    demoHub.integrationActive = true ∧
    truthy (ConsoleArg.bool false) = false ∧
    (capturedMessages (callEffects (ConsoleFn.wrap "assert" (some (ConsoleFn.orig 0)))
        (some demoHub)
        (ConsoleArg.bool false :: [ConsoleArg.str "expression is false"])) =
      [if safeJoin [ConsoleArg.str "expression is false"] = ""
       then "Assertion failed: console.assert"
       else "Assertion failed: " ++ safeJoin [ConsoleArg.str "expression is false"]] ∧
    lastExtra "arguments" (callEffects (ConsoleFn.wrap "assert" (some (ConsoleFn.orig 0)))
        (some demoHub)
        (ConsoleArg.bool false :: [ConsoleArg.str "expression is false"])) =
      some [ConsoleArg.str "expression is false"]) :=
  ⟨rfl, rfl,
    wrapped_assert_message_amended (some (ConsoleFn.orig 0)) demoHub
      (ConsoleArg.bool false) [ConsoleArg.str "expression is false"] rfl rfl⟩

/-- C5: for every call to a wrapped level holding a stored original
reference, that reference is invoked exactly once, with the original
arguments, whatever the hub situation (absent, inactive or active) at call
time. -/
theorem wrapped_call_invokes_original_once (level : String) (g : ConsoleFn)
    (hub : Option Hub) (args : List ConsoleArg) :
    countCallOriginal (callEffects (ConsoleFn.wrappedFn level g) hub args) = 1 ∧
    Effect.callOriginal g args ∈ callEffects (ConsoleFn.wrappedFn level g) hub args := by
  constructor
  · show countCallOriginal (dispatchEffects level args hub ++ [Effect.callOriginal g args]) = 1
    rw [countCallOriginal_append, countCallOriginal_dispatch]
    rfl
  · show Effect.callOriginal g args ∈
      dispatchEffects level args hub ++ [Effect.callOriginal g args]
    exact List.mem_append_right _ (List.mem_singleton.mpr rfl)

/-- C6: when setup runs against a hub whose `getIntegration` returns null,
the configured console levels are wrapped all the same (the console
mutation never consults the hub), but no call to a wrapped level ever
dispatches a capture to that hub. -/
theorem inactive_integration_wraps_but_never_captures (L : List String)
    (c : Console) (k : String) (old : Option ConsoleFn) (h : Hub)
    (hn : L.Nodup) (hk : k ∈ L) (hold : c k = some old)
    (hh : h.integrationActive = false) :
    wrapLevels L c k = some (some (ConsoleFn.wrap k old)) ∧
    (∀ (level : String) (stored : Option ConsoleFn) (args : List ConsoleArg),
        countCaptures (callEffects (ConsoleFn.wrap level stored) (some h) args) = 0) := by
  refine ⟨wrapLevels_mem L c k old hn hk hold, ?_⟩
  intro level stored args
  rw [callEffects_wrap, dispatchEffects_inactive _ _ _ hh]
  cases stored <;> rfl

theorem inactive_integration_wraps_but_never_captures_witness :
    (["log"] : List String).Nodup ∧ ("log" ∈ (["log"] : List String)) ∧
    demoConsole "log" = some (some (ConsoleFn.orig 0)) ∧
    demoHubOff.integrationActive = false ∧
    (wrapLevels ["log"] demoConsole "log" =
        some (some (ConsoleFn.wrap "log" (some (ConsoleFn.orig 0)))) ∧
    (∀ (level : String) (stored : Option ConsoleFn) (args : List ConsoleArg),
        countCaptures (callEffects (ConsoleFn.wrap level stored)
          (some demoHubOff) args) = 0)) :=
  ⟨by decide, by decide, by decide, rfl,
    inactive_integration_wraps_but_never_captures ["log"] demoConsole "log"
      (some (ConsoleFn.orig 0)) demoHubOff (by decide) (by decide) (by decide) rfl⟩

/-- C7: no operation surfaces an error to the caller — setup with the
console object absent returns without raising and degrades to a no-op, and
invoking a level that was wrapped over a missing (present but `undefined`)
original method reference returns without raising, for any hub and any
arguments. -/
theorem setup_and_wrapped_call_never_throw (L : List String) (c : Console)
    (k : String) (hub : Option Hub) (args : List ConsoleArg)
    (hn : L.Nodup) (hk : k ∈ L) (hold : c k = some none) :
    setupOnce L none = Except.ok none ∧
    invokeMember (wrapLevels L c) k hub args =
      Except.ok (callEffects (ConsoleFn.wrap k none) hub args) := by
  refine ⟨rfl, ?_⟩
  have heq := wrapLevels_mem L c k none hn hk hold
  rw [invokeMember, heq]

theorem setup_and_wrapped_call_never_throw_witness :
    (["info"] : List String).Nodup ∧ ("info" ∈ (["info"] : List String)) ∧
    demoConsole "info" = some none ∧
    (setupOnce ["info"] none = Except.ok none ∧
    invokeMember (wrapLevels ["info"] demoConsole) "info" none [] =
      Except.ok (callEffects (ConsoleFn.wrap "info" none) none [])) :=
  ⟨by decide, by decide, by decide,
    setup_and_wrapped_call_never_throw ["info"] demoConsole "info" none []
      (by decide) (by decide) (by decide)⟩

/-- C8: for every call to a wrapped non-assert level that dispatches a
report (integration active), the scope level is set exactly once, to the
console level name, and an event processor is added that sets the produced
event's logger field to the literal string `console`. -/
theorem dispatch_sets_scope_level_and_logger (level : String)
    (stored : Option ConsoleFn) (h : Hub) (args : List ConsoleArg)
    (hh : h.integrationActive = true) (_hl : level ≠ "assert") :
    countSetLevel (callEffects (ConsoleFn.wrap level stored) (some h) args) = 1 ∧
    Effect.setLevel level ∈ callEffects (ConsoleFn.wrap level stored) (some h) args ∧
    Effect.addLoggerProcessor "console" ∈
      callEffects (ConsoleFn.wrap level stored) (some h) args ∧
    (∀ e : Event, (applyLoggerProcessor "console" e).logger = some "console") := by
  rw [callEffects_wrap, dispatchEffects_active _ _ _ hh]
  refine ⟨?_, ?_, ?_, fun e => rfl⟩
  · rw [countSetLevel_append, countSetLevel_append, countSetLevel_callThrough,
        countSetLevel_branch]
    rfl
  · exact List.mem_append_left _ (List.mem_append_left _ (List.mem_cons_self _ _))
  · refine List.mem_append_left _ (List.mem_append_left _ ?_)
    simp [scopeSetup]

theorem dispatch_sets_scope_level_and_logger_witness :
    demoHub.integrationActive = true ∧ ("error" : String) ≠ "assert" ∧
    (countSetLevel (callEffects (ConsoleFn.wrap "error" (some (ConsoleFn.orig 0)))
        (some demoHub) [ConsoleArg.str "some logging message"]) = 1 ∧
    Effect.setLevel "error" ∈ callEffects (ConsoleFn.wrap "error" (some (ConsoleFn.orig 0)))
        (some demoHub) [ConsoleArg.str "some logging message"] ∧
    Effect.addLoggerProcessor "console" ∈
      callEffects (ConsoleFn.wrap "error" (some (ConsoleFn.orig 0)))
        (some demoHub) [ConsoleArg.str "some logging message"] ∧
    (∀ e : Event, (applyLoggerProcessor "console" e).logger = some "console")) :=
  ⟨rfl, by decide,
    dispatch_sets_scope_level_and_logger "error" (some (ConsoleFn.orig 0)) demoHub
      [ConsoleArg.str "some logging message"] rfl (by decide)⟩

/-- C9 counterexample: `info` on the demo console is present but holds
`undefined`, hence is not a callable member; with `levels: [info]` it is
nevertheless reassigned at setup, so being a callable member is not
necessary for wrapping — presence is what is required. -/
theorem callable_invariant_counterexample :
    callableSlot (demoConsole "info") = false ∧
    "info" ∈ effectiveLevels (some ["info"]) ∧
    wrapLevels (effectiveLevels (some ["info"])) demoConsole "info" ≠
      demoConsole "info" := by
  refine ⟨rfl, by decide, ?_⟩
  decide

/-- C9 (amended): a level is wrapped at setup iff it is in the effective
config and is present as a member of the console object at setup time —
callability is not required, a member holding `undefined` is wrapped too;
levels configured but absent from the console object are never created or
wrapped. -/
theorem wrap_iff_configured_and_present (opts : Option (List String))
    (c : Console) (k : String) (hn : (effectiveLevels opts).Nodup) :
    ((k ∈ effectiveLevels opts ∧ (c k).isSome) →
        ∃ old, c k = some old ∧
          wrapLevels (effectiveLevels opts) c k = some (some (ConsoleFn.wrap k old))) ∧
    (¬(k ∈ effectiveLevels opts ∧ (c k).isSome) →
        wrapLevels (effectiveLevels opts) c k = c k) ∧
    (c k = none → wrapLevels (effectiveLevels opts) c k = none) := by
  refine ⟨?_, ?_, fun hnone => wrapLevels_none _ c k hnone⟩
  · rintro ⟨hkL, hsome⟩
    obtain ⟨old, hold⟩ := Option.isSome_iff_exists.mp hsome
    exact ⟨old, hold, wrapLevels_mem _ c k old hn hkL hold⟩
  · intro hnot
    by_cases hkL : k ∈ effectiveLevels opts
    · have hnone : c k = none := by
        cases hc : c k with
        | none => rfl
        | some v => exact absurd ⟨hkL, by simp [hc]⟩ hnot
      rw [wrapLevels_none _ c k hnone, hnone]
    · exact wrapLevels_notMem _ c k hkL

theorem wrap_iff_configured_and_present_witness :
    (effectiveLevels (some ["log"])).Nodup ∧
    ((("log" ∈ effectiveLevels (some ["log"])) ∧ (demoConsole "log").isSome) →
        ∃ old, demoConsole "log" = some old ∧
          wrapLevels (effectiveLevels (some ["log"])) demoConsole "log" =
            some (some (ConsoleFn.wrap "log" old))) ∧
    (¬(("log" ∈ effectiveLevels (some ["log"])) ∧ (demoConsole "log").isSome) →
        wrapLevels (effectiveLevels (some ["log"])) demoConsole "log" =
          demoConsole "log") ∧
    (demoConsole "log" = none →
        wrapLevels (effectiveLevels (some ["log"])) demoConsole "log" = none) :=
  ⟨by decide, wrap_iff_configured_and_present (some ["log"]) demoConsole "log" (by decide)⟩

/-- C10: calling a wrapped non-assert level with zero arguments, with the
integration active, still dispatches exactly one message-capture, and the
value recorded as extra context under the literal key `arguments` is the
empty list. -/
theorem zero_arg_call_captures_message (level : String)
    (stored : Option ConsoleFn) (h : Hub)
    (hh : h.integrationActive = true) (hl : level ≠ "assert") :
    countMessages (callEffects (ConsoleFn.wrap level stored) (some h) []) = 1 ∧
    Effect.setExtra "arguments" [] ∈
      callEffects (ConsoleFn.wrap level stored) (some h) [] ∧
    lastExtra "arguments" (callEffects (ConsoleFn.wrap level stored) (some h) []) =
      some [] := by
  rw [callEffects_wrap, dispatchEffects_active _ _ _ hh,
      branchEffects_other_length level hl [] (by decide)]
  refine ⟨?_, ?_, ?_⟩
  · rw [countMessages_append, countMessages_append, countMessages_callThrough]
    rfl
  · refine List.mem_append_left _ (List.mem_append_left _ ?_)
    simp [scopeSetup]
  · cases stored <;> rfl

theorem zero_arg_call_captures_message_witness :
    demoHub.integrationActive = true ∧ ("log" : String) ≠ "assert" ∧
    (countMessages (callEffects (ConsoleFn.wrap "log" (some (ConsoleFn.orig 0)))
        (some demoHub) []) = 1 ∧
    Effect.setExtra "arguments" [] ∈
      callEffects (ConsoleFn.wrap "log" (some (ConsoleFn.orig 0))) (some demoHub) [] ∧
    lastExtra "arguments" (callEffects (ConsoleFn.wrap "log" (some (ConsoleFn.orig 0)))
        (some demoHub) []) = some []) :=
  ⟨rfl, by decide,
    zero_arg_call_captures_message "log" (some (ConsoleFn.orig 0)) demoHub rfl (by decide)⟩
